import Mathlib

/-!
Shallow embedding of the mirrors-simulation optics core.

The physics module (src/physics.ts) is embedded over an arbitrary linear
ordered field `K` (instantiated at `ℚ` for exact-arithmetic statements and
at `ℝ` for the canvas geometry).  JavaScript numbers are modelled by
`XNum K`: a finite value, a signed infinity, or NaN; the arithmetic
operations that the source applies to possibly-infinite values are given
their IEEE-style semantics on this type.

The canvas drawing routine (src/App.tsx) is embedded over `ℝ`:
`getIntersection`, the image-tip coordinates, and the per-ray records
produced by `drawRay`.
-/

namespace Mirrors

/-- Mirror kinds, as in the `MirrorType` union of src/physics.ts. -/
inductive MirrorType where
  | PLANE
  | CONCAVE
  | CONVEX
deriving DecidableEq, Repr

/-- A JavaScript number: a finite value in `K`, a signed infinity, or NaN. -/
inductive XNum (K : Type) where
  | num (q : K)
  | posInf
  | negInf
  | nan
deriving DecidableEq

variable {K : Type} [LinearOrderedField K]

/-- Negation on `XNum`. -/
def XNum.neg : XNum K → XNum K
  | num q => num (-q)
  | posInf => negInf
  | negInf => posInf
  | nan => nan

/-- Division of an `XNum` by a finite value, IEEE-style (division of a
nonzero finite value by zero gives a signed infinity, `0/0` gives NaN). -/
def XNum.divq : XNum K → K → XNum K
  | num a, b =>
      if b = 0 then (if a = 0 then nan else if 0 < a then posInf else negInf)
      else num (a / b)
  | posInf, b => if b < 0 then negInf else posInf
  | negInf, b => if b < 0 then posInf else negInf
  | nan, _ => nan

/-- Multiplication of an `XNum` by a finite value, IEEE-style
(`±∞ * 0 = NaN`). -/
def XNum.mulq : XNum K → K → XNum K
  | num a, b => num (a * b)
  | posInf, b => if 0 < b then posInf else if b < 0 then negInf else nan
  | negInf, b => if 0 < b then negInf else if b < 0 then posInf else nan
  | nan, _ => nan

/-- Subtraction of an `XNum` from a finite value. -/
def XNum.qsub (a : K) : XNum K → XNum K
  | num b => num (a - b)
  | posInf => negInf
  | negInf => posInf
  | nan => nan

/-- The JavaScript comparison `x > 0` (false on NaN). -/
def XNum.gt0 : XNum K → Bool
  | num a => decide (0 < a)
  | posInf => true
  | negInf => false
  | nan => false

/-- The JavaScript comparison `x < b` for finite `b` (false on NaN). -/
def XNum.ltq : XNum K → K → Bool
  | num a, b => decide (a < b)
  | posInf, _ => false
  | negInf, _ => true
  | nan, _ => false

/-- The JavaScript comparison `x > b` for finite `b` (false on NaN). -/
def XNum.gtq : XNum K → K → Bool
  | num a, b => decide (b < a)
  | posInf, _ => true
  | negInf, _ => false
  | nan, _ => false

/-- `calculateImageDistance` from src/physics.ts:
`if (objDist === f) return Infinity; return (objDist * f) / (objDist - f);` -/
def calculateImageDistance (objDist f : K) : XNum K :=
  if objDist = f then XNum.posInf else XNum.num ((objDist * f) / (objDist - f))

/-- `calculateObjectDistance` from src/physics.ts:
`if (di === f) return Infinity; return (di * f) / (di - f);` -/
def calculateObjectDistance (di f : K) : XNum K :=
  if di = f then XNum.posInf else XNum.num ((di * f) / (di - f))

/-- The `SimulationState` record of src/physics.ts. -/
structure SimulationState (K : Type) where
  mirrorType : MirrorType
  focalLength : K
  objectDistance : K
  objectHeight : K

/-- The record returned by `calculateImage`. -/
structure ImageResult (K : Type) where
  imageDistance : XNum K
  imageHeight : XNum K
  magnification : XNum K
  isReal : Bool
deriving DecidableEq

/-- `calculateImage` from src/physics.ts. -/
def calculateImage (state : SimulationState K) : ImageResult K :=
  if state.mirrorType = MirrorType.PLANE then
    { imageDistance := XNum.num (-state.objectDistance)
      imageHeight := XNum.num state.objectHeight
      magnification := XNum.num 1
      isReal := false }
  else
    let di := calculateImageDistance state.objectDistance state.focalLength
    let magnification := XNum.divq di.neg state.objectDistance
    let imageHeight := magnification.mulq state.objectHeight
    { imageDistance := di
      imageHeight := imageHeight
      magnification := magnification
      isReal := di.gt0 }

/-- `handleImageDistanceChange` from src/App.tsx, as a state transformer on
the stored `objectDistance`: for a plane mirror it stores `|di|`; otherwise
it computes `newDo = calculateObjectDistance(di, focalLength)` and stores it
only when `newDo > 0 && newDo < 1000`, keeping the prior value otherwise. -/
def handleImageDistanceChange (mirrorType : MirrorType) (focalLength objectDistance di : K) :
    XNum K :=
  if mirrorType = MirrorType.PLANE then XNum.num |di|
  else
    let newDo := calculateObjectDistance di focalLength
    if newDo.gt0 && newDo.ltq 1000 then newDo else XNum.num objectDistance

noncomputable section

/-- JavaScript `Math.atan2 y x`, the argument of the complex number
`x + y*i`. -/
def atan2 (y x : ℝ) : ℝ := Complex.arg ⟨x, y⟩

/-- The inputs of the canvas drawing effect of src/App.tsx: the canvas
dimensions and the four simulation state variables. -/
structure DrawEnv where
  canvasWidth : ℝ
  canvasHeight : ℝ
  mirrorType : MirrorType
  focalLength : ℝ
  objectDistance : ℝ
  objectHeight : ℝ

/-- `const centerX = canvas.width / 2 - 100`. -/
def DrawEnv.centerX (e : DrawEnv) : ℝ := e.canvasWidth / 2 - 100

/-- `const centerY = canvas.height / 2`. -/
def DrawEnv.centerY (e : DrawEnv) : ℝ := e.canvasHeight / 2

/-- `const R = 2 * focalLength`. -/
def DrawEnv.R (e : DrawEnv) : ℝ := 2 * e.focalLength

/-- `const absR = Math.abs(R)`. -/
def DrawEnv.absR (e : DrawEnv) : ℝ := |e.R|

/-- `const Cx = centerX - R`. -/
def DrawEnv.Cx (e : DrawEnv) : ℝ := e.centerX - e.R

/-- `const Cy = centerY`. -/
def DrawEnv.Cy (e : DrawEnv) : ℝ := e.centerY

/-- The coefficient `A = dx * dx + dy * dy` of the line-circle quadratic in
`getIntersection`. -/
def quadA (x1 y1 x2 y2 : ℝ) : ℝ :=
  (x2 - x1) * (x2 - x1) + (y2 - y1) * (y2 - y1)

/-- The coefficient `B = 2 * (dx * (x1 - Cx) + dy * (y1 - Cy))`. -/
def quadB (e : DrawEnv) (x1 y1 x2 y2 : ℝ) : ℝ :=
  2 * ((x2 - x1) * (x1 - e.Cx) + (y2 - y1) * (y1 - e.Cy))

/-- The coefficient `C = (x1 - Cx)^2 + (y1 - Cy)^2 - absR^2`. -/
def quadC (e : DrawEnv) (x1 y1 : ℝ) : ℝ :=
  (x1 - e.Cx) * (x1 - e.Cx) + (y1 - e.Cy) * (y1 - e.Cy) - e.absR * e.absR

/-- The discriminant `det = B * B - 4 * A * C`. -/
def disc (e : DrawEnv) (x1 y1 x2 y2 : ℝ) : ℝ :=
  quadB e x1 y1 x2 y2 * quadB e x1 y1 x2 y2 -
    4 * quadA x1 y1 x2 y2 * quadC e x1 y1

/-- The root `t1 = (-B + Math.sqrt det) / (2 * A)`. -/
def root1 (e : DrawEnv) (x1 y1 x2 y2 : ℝ) : ℝ :=
  (-quadB e x1 y1 x2 y2 + Real.sqrt (disc e x1 y1 x2 y2)) /
    (2 * quadA x1 y1 x2 y2)

/-- The root `t2 = (-B - Math.sqrt det) / (2 * A)`. -/
def root2 (e : DrawEnv) (x1 y1 x2 y2 : ℝ) : ℝ :=
  (-quadB e x1 y1 x2 y2 - Real.sqrt (disc e x1 y1 x2 y2)) /
    (2 * quadA x1 y1 x2 y2)

/-- The candidate point `p1 = { x: x1 + t1 * dx, y: y1 + t1 * dy }`. -/
def point1 (e : DrawEnv) (x1 y1 x2 y2 : ℝ) : ℝ × ℝ :=
  (x1 + root1 e x1 y1 x2 y2 * (x2 - x1), y1 + root1 e x1 y1 x2 y2 * (y2 - y1))

/-- The candidate point `p2 = { x: x1 + t2 * dx, y: y1 + t2 * dy }`. -/
def point2 (e : DrawEnv) (x1 y1 x2 y2 : ℝ) : ℝ × ℝ :=
  (x1 + root2 e x1 y1 x2 y2 * (x2 - x1), y1 + root2 e x1 y1 x2 y2 * (y2 - y1))

/-- The `getIntersection` helper of src/App.tsx.  For a plane mirror it
interpolates the line to `x = centerX`; otherwise it intersects the line
with the circle of radius `absR` about `(Cx, Cy)`, falling back to the
vertex `(centerX, centerY)` when the discriminant is negative, and picking
of the two roots the point whose x-coordinate is closest to `centerX`. -/
def getIntersection (e : DrawEnv) (x1 y1 x2 y2 : ℝ) : ℝ × ℝ :=
  if e.mirrorType = MirrorType.PLANE then
    (e.centerX, y1 + (e.centerX - x1) * (y2 - y1) / (x2 - x1))
  else if disc e x1 y1 x2 y2 < 0 then (e.centerX, e.centerY)
  else if |(point1 e x1 y1 x2 y2).1 - e.centerX| <
      |(point2 e x1 y1 x2 y2).1 - e.centerX| then
    point1 e x1 y1 x2 y2
  else point2 e x1 y1 x2 y2

/-- The simulation state passed to `calculateImage` by the app. -/
def DrawEnv.state (e : DrawEnv) : SimulationState ℝ :=
  ⟨e.mirrorType, e.focalLength, e.objectDistance, e.objectHeight⟩

/-- `const image = calculateImage({ mirrorType, focalLength, objectDistance,
objectHeight })`. -/
def DrawEnv.image (e : DrawEnv) : ImageResult ℝ := calculateImage e.state

/-- `const objX = centerX - objectDistance`. -/
def DrawEnv.objX (e : DrawEnv) : ℝ := e.centerX - e.objectDistance

/-- `const objY = centerY - objectHeight`. -/
def DrawEnv.objY (e : DrawEnv) : ℝ := e.centerY - e.objectHeight

/-- `const fX = centerX - focalLength` (the focal point's x-coordinate). -/
def DrawEnv.fX (e : DrawEnv) : ℝ := e.centerX - e.focalLength

/-- `const cX = centerX - 2 * focalLength` (the curvature center's
x-coordinate used for the third ray). -/
def DrawEnv.cXpt (e : DrawEnv) : ℝ := e.centerX - 2 * e.focalLength

/-- `const imgTipX = centerX - image.imageDistance`. -/
def DrawEnv.imgTipX (e : DrawEnv) : XNum ℝ :=
  XNum.qsub e.centerX e.image.imageDistance

/-- `let imgTipY = centerY - image.imageHeight`, overridden for non-plane
mirrors by the y-coordinate of the through-focus ray's intersection with
the mirror: `imgTipY = getIntersection(objX, objY, fX, centerY).y`. -/
def DrawEnv.imgTipY (e : DrawEnv) : XNum ℝ :=
  if e.mirrorType = MirrorType.PLANE then
    XNum.qsub e.centerY e.image.imageHeight
  else
    XNum.num (getIntersection e e.objX e.objY e.fX e.centerY).2

/-- One call of the `drawRay` helper of src/App.tsx: the incident segment
runs from `(startX, startY)` to `(mirrorX, mirrorY)`, the reflected segment
from there to `(reflX, reflY)`, and, when `showVirtual` is set, a dashed
virtual-extension segment from the reflection point to
`(virtualX, virtualY)`. -/
structure RayDraw where
  startX : ℝ
  startY : ℝ
  mirrorX : ℝ
  mirrorY : ℝ
  reflX : ℝ
  reflY : ℝ
  showVirtual : Bool
  virtualX : XNum ℝ
  virtualY : XNum ℝ

/-- Builds the record for one `drawRay(ctx, x1, y1, mx, my, rx, ry, color,
showVirtual, vx, vy)` call (the color argument carries no geometry). -/
def drawRay (x1 y1 mx my rx ry : ℝ) (showVirtual : Bool) (vx vy : XNum ℝ) :
    RayDraw :=
  ⟨x1, y1, mx, my, rx, ry, showVirtual, vx, vy⟩

/-- The list of `drawRay` calls issued by the drawing effect of
src/App.tsx: two rays for a plane mirror, three (parallel, through-focus,
through-center) for a curved mirror. -/
def DrawEnv.rays (e : DrawEnv) : List RayDraw :=
  if e.mirrorType = MirrorType.PLANE then
    [drawRay e.objX e.objY e.centerX e.objY (-500) e.objY true
      e.imgTipX (XNum.num e.objY),
     drawRay e.objX e.objY e.centerX e.centerY (e.centerX - 500)
      (e.centerY + 500 * Real.tan (-atan2 (e.objY - e.centerY) (e.objX - e.centerX)))
      true e.imgTipX e.imgTipY]
  else
    let m1 := getIntersection e e.objX e.objY (e.centerX + 100) e.objY
    let fPoint : ℝ × ℝ := (e.centerX - e.focalLength, e.centerY)
    let angle1 :=
      if e.mirrorType = MirrorType.CONVEX then
        atan2 (m1.2 - fPoint.2) (m1.1 - fPoint.1)
      else atan2 (fPoint.2 - m1.2) (fPoint.1 - m1.1)
    let rx1 := m1.1 + 1000 * Real.cos angle1
    let ry1 := m1.2 + 1000 * Real.sin angle1
    let m2 := getIntersection e e.objX e.objY e.fX e.centerY
    let m3 := getIntersection e e.objX e.objY e.cXpt e.centerY
    let angle3 := atan2 (m3.2 - e.centerY) (m3.1 - e.cXpt)
    let rx3 := m3.1 + 1000 * Real.cos angle3
    let ry3 := m3.2 + 1000 * Real.sin angle3
    let finalRx3 := if rx3 > m3.1 then m3.1 - 1000 * Real.cos angle3 else rx3
    let finalRy3 := if rx3 > m3.1 then m3.2 - 1000 * Real.sin angle3 else ry3
    [drawRay e.objX e.objY m1.1 m1.2 rx1 ry1 (!e.image.isReal)
      e.imgTipX e.imgTipY,
     drawRay e.objX e.objY m2.1 m2.2 (m2.1 - 1000) m2.2 (!e.image.isReal)
      e.imgTipX e.imgTipY,
     drawRay e.objX e.objY m3.1 m3.2 finalRx3 finalRy3 (!e.image.isReal)
      e.imgTipX e.imgTipY]

/-- A concrete drawing environment: the app's default state (concave
mirror, `f = 100`, object at `200` with height `50`) on the 800x500
canvas. -/
def envConcave : DrawEnv := ⟨800, 500, MirrorType.CONCAVE, 100, 200, 50⟩

/-- A concrete drawing environment with a plane mirror on the 800x500
canvas. -/
def envPlane : DrawEnv := ⟨800, 500, MirrorType.PLANE, 100, 200, 50⟩

/-- A concrete drawing environment producing a virtual image: concave
mirror with the object inside the focal length (`f = 100`, object at
`50`). -/
def envVirtual : DrawEnv := ⟨800, 500, MirrorType.CONCAVE, 100, 50, 50⟩

end

lemma quadA_ne_zero {x1 y1 x2 y2 : ℝ} (h : (x1, y1) ≠ (x2, y2)) :
    quadA x1 y1 x2 y2 ≠ 0 := by
  intro hA
  apply h
  rw [quadA] at hA
  have h1 : (x2 - x1) * (x2 - x1) = 0 := by
    nlinarith [mul_self_nonneg (x2 - x1), mul_self_nonneg (y2 - y1)]
  have h2 : (y2 - y1) * (y2 - y1) = 0 := by
    nlinarith [mul_self_nonneg (x2 - x1), mul_self_nonneg (y2 - y1)]
  have hx : x2 = x1 := sub_eq_zero.mp (mul_self_eq_zero.mp h1)
  have hy : y2 = y1 := sub_eq_zero.mp (mul_self_eq_zero.mp h2)
  rw [hx, hy]

lemma on_circle_of_root (e : DrawEnv) {x1 y1 x2 y2 t : ℝ}
    (ht : quadA x1 y1 x2 y2 * t ^ 2 + quadB e x1 y1 x2 y2 * t +
      quadC e x1 y1 = 0) :
    (x1 + t * (x2 - x1) - e.Cx) ^ 2 + (y1 + t * (y2 - y1) - e.Cy) ^ 2 =
      e.absR ^ 2 := by
  simp only [quadA, quadB, quadC] at ht
  linear_combination ht

lemma quadratic_root_plus (A B C s : ℝ) (hA : A ≠ 0)
    (hs : s ^ 2 = B * B - 4 * A * C) :
    A * ((-B + s) / (2 * A)) ^ 2 + B * ((-B + s) / (2 * A)) + C = 0 := by
  have expand : A * ((-B + s) / (2 * A)) ^ 2 + B * ((-B + s) / (2 * A)) + C =
      (s ^ 2 - (B * B - 4 * A * C)) / (4 * A) := by
    field_simp
    ring
  rw [expand, hs, sub_self, zero_div]

lemma quadratic_root_minus (A B C s : ℝ) (hA : A ≠ 0)
    (hs : s ^ 2 = B * B - 4 * A * C) :
    A * ((-B - s) / (2 * A)) ^ 2 + B * ((-B - s) / (2 * A)) + C = 0 := by
  have expand : A * ((-B - s) / (2 * A)) ^ 2 + B * ((-B - s) / (2 * A)) + C =
      (s ^ 2 - (B * B - 4 * A * C)) / (4 * A) := by
    field_simp
    ring
  rw [expand, hs, sub_self, zero_div]

lemma root1_is_root (e : DrawEnv) {x1 y1 x2 y2 : ℝ}
    (hA : quadA x1 y1 x2 y2 ≠ 0) (hd : 0 ≤ disc e x1 y1 x2 y2) :
    quadA x1 y1 x2 y2 * root1 e x1 y1 x2 y2 ^ 2 +
      quadB e x1 y1 x2 y2 * root1 e x1 y1 x2 y2 + quadC e x1 y1 = 0 := by
  have hs : Real.sqrt (disc e x1 y1 x2 y2) ^ 2 =
      quadB e x1 y1 x2 y2 * quadB e x1 y1 x2 y2 -
        4 * quadA x1 y1 x2 y2 * quadC e x1 y1 := Real.sq_sqrt hd
  exact quadratic_root_plus _ _ _ _ hA hs

lemma root2_is_root (e : DrawEnv) {x1 y1 x2 y2 : ℝ}
    (hA : quadA x1 y1 x2 y2 ≠ 0) (hd : 0 ≤ disc e x1 y1 x2 y2) :
    quadA x1 y1 x2 y2 * root2 e x1 y1 x2 y2 ^ 2 +
      quadB e x1 y1 x2 y2 * root2 e x1 y1 x2 y2 + quadC e x1 y1 = 0 := by
  have hs : Real.sqrt (disc e x1 y1 x2 y2) ^ 2 =
      quadB e x1 y1 x2 y2 * quadB e x1 y1 x2 y2 -
        4 * quadA x1 y1 x2 y2 * quadC e x1 y1 := Real.sq_sqrt hd
  exact quadratic_root_minus _ _ _ _ hA hs

lemma sqrt_circle (e : DrawEnv) {px py : ℝ}
    (h : (px - e.Cx) ^ 2 + (py - e.Cy) ^ 2 = e.absR ^ 2) :
    Real.sqrt ((px - e.Cx) ^ 2 + (py - e.Cy) ^ 2) = |2 * e.focalLength| := by
  rw [h, Real.sqrt_sq_eq_abs]
  exact abs_abs (2 * e.focalLength)

lemma vertex_on_circle (e : DrawEnv) :
    (e.centerX - e.Cx) ^ 2 + (e.centerY - e.Cy) ^ 2 = e.absR ^ 2 := by
  simp only [DrawEnv.Cx, DrawEnv.Cy, DrawEnv.absR]
  rw [sq_abs]
  ring

/-- C1: for every object distance `u` and focal length `f` with `u ≠ f`
(and `u`, `f`, and the resulting image distance nonzero), the finite value
`di` returned by `calculateImageDistance u f` satisfies the mirror equation
`1/u + 1/di = 1/f` exactly over the rationals. -/
theorem claim1_mirror_equation (u f di : ℚ) (huf : u ≠ f) (hu : u ≠ 0)
    (hf : f ≠ 0) (hdi : calculateImageDistance u f = XNum.num di) :
    di ≠ 0 ∧ 1 / u + 1 / di = 1 / f := by
  have hsub : u - f ≠ 0 := sub_ne_zero.mpr huf
  rw [calculateImageDistance, if_neg huf] at hdi
  have hdi2 : u * f / (u - f) = di := by
    simpa using hdi
  subst hdi2
  refine ⟨div_ne_zero (mul_ne_zero hu hf) hsub, ?_⟩
  rw [one_div_div]
  field_simp

/-- Witness for C1 at `u = 200`, `f = 100`, where `di = 200`. -/
theorem claim1_mirror_equation_witness :
    (200 : ℚ) ≠ 0 ∧ 1 / 200 + 1 / (200 : ℚ) = 1 / 100 :=
  claim1_mirror_equation 200 100 200 (by norm_num) (by norm_num) (by norm_num)
    (by norm_num [calculateImageDistance])

/-- C2 counterexample: at `u = 5`, `f = 0` we have `u ≠ f`, yet the
round-trip `calculateObjectDistance (calculateImageDistance 5 0) 0` hits the
`di === f` sentinel branch and returns `Infinity`, not `5`. -/
theorem claim2_roundTrip_cex :
    (5 : ℚ) ≠ 0 ∧ calculateImageDistance (5 : ℚ) 0 = XNum.num 0 ∧
      calculateObjectDistance (0 : ℚ) 0 = XNum.posInf ∧
      XNum.posInf ≠ XNum.num (5 : ℚ) := by
  refine ⟨by norm_num, by norm_num [calculateImageDistance], ?_, ?_⟩
  · simp [calculateObjectDistance]
  · exact fun hc => XNum.noConfusion hc

/-- C2 (amended): for every `u` and `f` with `u ≠ f` and `f ≠ 0`, the
inverse solve undoes the forward solve:
`calculateObjectDistance (calculateImageDistance u f) f = u`. -/
theorem claim2_roundTrip (u f di : ℚ) (huf : u ≠ f) (hf : f ≠ 0)
    (hdi : calculateImageDistance u f = XNum.num di) :
    calculateObjectDistance di f = XNum.num u := by
  have hsub : u - f ≠ 0 := sub_ne_zero.mpr huf
  rw [calculateImageDistance, if_neg huf] at hdi
  have hdi2 : u * f / (u - f) = di := by
    simpa using hdi
  subst hdi2
  have hdif : u * f / (u - f) ≠ f := by
    intro hcontra
    apply hf
    have hmul : u * f = f * (u - f) := (div_eq_iff hsub).mp hcontra
    have hff : f * f = 0 := by linear_combination hmul
    exact mul_self_eq_zero.mp hff
  rw [calculateObjectDistance, if_neg hdif]
  congr 1
  have hb : u * f / (u - f) - f = f * f / (u - f) := by
    field_simp
    ring
  rw [hb]
  field_simp
  ring

/-- Witness for the amended C2 at `u = 200`, `f = 100`, where `di = 200`. -/
theorem claim2_roundTrip_witness :
    calculateObjectDistance (200 : ℚ) 100 = XNum.num 200 :=
  claim2_roundTrip 200 100 200 (by norm_num) (by norm_num)
    (by norm_num [calculateImageDistance])

/-- C3: for every object distance `u > 0`, focal length, and object height,
`calculateImage` with mirror type `PLANE` returns image distance `-u`,
image height equal to the object height, magnification `1`, and
`isReal = false`; the result does not depend on the focal length. -/
theorem claim3_plane_image (f g u h : ℚ) (_hu : 0 < u) :
    calculateImage ⟨MirrorType.PLANE, f, u, h⟩ =
      ⟨XNum.num (-u), XNum.num h, XNum.num 1, false⟩ ∧
    calculateImage ⟨MirrorType.PLANE, f, u, h⟩ =
      calculateImage ⟨MirrorType.PLANE, g, u, h⟩ :=
  ⟨rfl, rfl⟩

/-- Witness for C3 at focal lengths `100` and `-100`, object distance
`200`, object height `50`. -/
theorem claim3_plane_image_witness :
    calculateImage ⟨MirrorType.PLANE, 100, 200, (50 : ℚ)⟩ =
      ⟨XNum.num (-200), XNum.num 50, XNum.num 1, false⟩ ∧
    calculateImage ⟨MirrorType.PLANE, 100, 200, (50 : ℚ)⟩ =
      calculateImage ⟨MirrorType.PLANE, -100, 200, 50⟩ :=
  claim3_plane_image 100 (-100) 200 50 (by norm_num)

/-- C4: when the object distance equals the focal length, the solver
returns the `Infinity` sentinel before dividing: the result exceeds every
rational threshold, is not NaN, and `calculateImage` for a curved mirror
reports the same infinite image distance. -/
theorem claim4_focal_sentinel (f h : ℚ) (mt : MirrorType)
    (hmt : mt ≠ MirrorType.PLANE) :
    calculateImageDistance f f = XNum.posInf ∧
    (∀ M : ℚ, XNum.gtq (calculateImageDistance f f) M = true) ∧
    calculateImageDistance f f ≠ XNum.nan ∧
    (calculateImage ⟨mt, f, f, h⟩).imageDistance = XNum.posInf := by
  have h1 : calculateImageDistance f f = XNum.posInf := by
    simp [calculateImageDistance]
  refine ⟨h1, fun M => by rw [h1]; rfl,
    by rw [h1]; exact fun hc => XNum.noConfusion hc, ?_⟩
  simp [calculateImage, hmt, h1]

/-- Witness for C4 with a concave mirror, `f = 100`, object height `50`. -/
theorem claim4_focal_sentinel_witness :
    calculateImageDistance (100 : ℚ) 100 = XNum.posInf ∧
    (∀ M : ℚ, XNum.gtq (calculateImageDistance (100 : ℚ) 100) M = true) ∧
    calculateImageDistance (100 : ℚ) 100 ≠ XNum.nan ∧
    (calculateImage ⟨MirrorType.CONCAVE, 100, 100, (50 : ℚ)⟩).imageDistance =
      XNum.posInf :=
  claim4_focal_sentinel 100 50 MirrorType.CONCAVE (by decide)

/-- C9: for a non-plane mirror, `handleImageDistanceChange` keeps the
stored object distance whenever the computed `calculateObjectDistance di f`
is not strictly between `0` and `1000` (infinite results included), and the
inverse solver itself performs no clamping: away from its sentinel branch
it returns the raw quotient `di * f / (di - f)`. -/
theorem claim9_inverse_reject (mt : MirrorType) (f od di : ℚ)
    (hmt : mt ≠ MirrorType.PLANE)
    (hrej : ∀ q : ℚ, calculateObjectDistance di f = XNum.num q →
      ¬(0 < q ∧ q < 1000)) :
    handleImageDistanceChange mt f od di = XNum.num od ∧
    (di ≠ f → calculateObjectDistance di f = XNum.num (di * f / (di - f))) := by
  constructor
  · simp only [handleImageDistanceChange]
    rw [if_neg hmt]
    rcases hE : calculateObjectDistance di f with q | _ | _ | _
    · have hq := hrej q hE
      have hb : (XNum.gt0 (XNum.num q) && XNum.ltq (XNum.num q) (1000 : ℚ)) =
          false := by
        rcases lt_or_le 0 q with h0 | h0
        · rcases lt_or_le q 1000 with h1 | h1
          · exact absurd ⟨h0, h1⟩ hq
          · simp [XNum.ltq, not_lt.mpr h1]
        · simp [XNum.gt0, not_lt.mpr h0]
      rw [hb]
      simp
    · simp [XNum.gt0, XNum.ltq]
    · simp [XNum.gt0, XNum.ltq]
    · simp [XNum.gt0, XNum.ltq]
  · intro hdf
    rw [calculateObjectDistance, if_neg hdf]

/-- Witness for C9 with a concave mirror, `f = 100`, stored object distance
`200`, requested image distance `50`: the computed object distance is
`-100`, so the update is rejected and `200` is retained. -/
theorem claim9_inverse_reject_witness :
    handleImageDistanceChange MirrorType.CONCAVE 100 200 (50 : ℚ) =
      XNum.num 200 ∧
    ((50 : ℚ) ≠ 100 → calculateObjectDistance (50 : ℚ) 100 =
      XNum.num (50 * 100 / (50 - 100))) :=
  claim9_inverse_reject MirrorType.CONCAVE 100 200 50 (by decide)
    (by
      intro q hq
      rw [calculateObjectDistance, if_neg (by norm_num : (50 : ℚ) ≠ 100)] at hq
      have hq2 : ((50 : ℚ) * 100 / (50 - 100)) = q := by simpa using hq
      rw [show ((50 : ℚ) * 100 / (50 - 100)) = -100 by norm_num] at hq2
      subst hq2
      norm_num)

/-- C10: the forward and inverse solvers are extensionally equal: for every
pair of real arguments, `calculateImageDistance a f` and
`calculateObjectDistance a f` coincide — the mirror equation is symmetric
in object and image distance. -/
theorem claim10_solvers_extensionally_equal (a f : ℝ) :
    calculateImageDistance a f = calculateObjectDistance a f := rfl

/-- C5: the point returned by `getIntersection` lies on the mirror
surface: for a curved mirror (negative-discriminant fallback included) its
distance from the arc center `(Cx, Cy)` equals `|2f|`, and for a plane
mirror (with a non-vertical incident line) its x-coordinate equals the
vertex x-coordinate `centerX`. -/
theorem claim5_on_mirror_surface (e : DrawEnv) (x1 y1 x2 y2 : ℝ) :
    (e.mirrorType ≠ MirrorType.PLANE → (x1, y1) ≠ (x2, y2) →
      Real.sqrt (((getIntersection e x1 y1 x2 y2).1 - e.Cx) ^ 2 +
          ((getIntersection e x1 y1 x2 y2).2 - e.Cy) ^ 2) =
        |2 * e.focalLength|) ∧
    (e.mirrorType = MirrorType.PLANE → x1 ≠ x2 →
      (getIntersection e x1 y1 x2 y2).1 = e.centerX) := by
  constructor
  · intro hm hne
    have hA := quadA_ne_zero hne
    simp only [getIntersection]
    rw [if_neg hm]
    by_cases hd : disc e x1 y1 x2 y2 < 0
    · rw [if_pos hd]
      exact sqrt_circle e (vertex_on_circle e)
    · rw [if_neg hd]
      have hd2 : 0 ≤ disc e x1 y1 x2 y2 := not_lt.mp hd
      by_cases hc : |(point1 e x1 y1 x2 y2).1 - e.centerX| <
          |(point2 e x1 y1 x2 y2).1 - e.centerX|
      · rw [if_pos hc]
        exact sqrt_circle e (on_circle_of_root e (root1_is_root e hA hd2))
      · rw [if_neg hc]
        exact sqrt_circle e (on_circle_of_root e (root2_is_root e hA hd2))
  · intro hm _hx
    simp only [getIntersection]
    rw [if_pos hm]

/-- Witness for C5: the horizontal line through the optical axis in the
default concave environment meets the mirror at distance `|2 * 100|` from
the arc center. -/
theorem claim5_on_mirror_surface_witness :
    Real.sqrt (((getIntersection envConcave 0 250 1 250).1 - envConcave.Cx) ^ 2 +
        ((getIntersection envConcave 0 250 1 250).2 - envConcave.Cy) ^ 2) =
      |2 * envConcave.focalLength| :=
  (claim5_on_mirror_surface envConcave 0 250 1 250).1 (by decide)
    (by norm_num [Prod.ext_iff])

/-- C6: in the curved-mirror case of `getIntersection`, a negative
discriminant yields the mirror vertex `(centerX, centerY)`; otherwise the
result is one of the two quadratic root points, namely the one whose
x-coordinate is closest to the vertex x-coordinate `centerX`. -/
theorem claim6_root_selection (e : DrawEnv) (x1 y1 x2 y2 : ℝ)
    (hm : e.mirrorType ≠ MirrorType.PLANE) :
    (disc e x1 y1 x2 y2 < 0 →
      getIntersection e x1 y1 x2 y2 = (e.centerX, e.centerY)) ∧
    (0 ≤ disc e x1 y1 x2 y2 →
      (getIntersection e x1 y1 x2 y2 = point1 e x1 y1 x2 y2 ∨
        getIntersection e x1 y1 x2 y2 = point2 e x1 y1 x2 y2) ∧
      |(getIntersection e x1 y1 x2 y2).1 - e.centerX| ≤
        |(point1 e x1 y1 x2 y2).1 - e.centerX| ∧
      |(getIntersection e x1 y1 x2 y2).1 - e.centerX| ≤
        |(point2 e x1 y1 x2 y2).1 - e.centerX|) := by
  constructor
  · intro hd
    simp only [getIntersection]
    rw [if_neg hm, if_pos hd]
  · intro hd
    have hd2 : ¬disc e x1 y1 x2 y2 < 0 := not_lt.mpr hd
    simp only [getIntersection]
    rw [if_neg hm, if_neg hd2]
    by_cases hc : |(point1 e x1 y1 x2 y2).1 - e.centerX| <
        |(point2 e x1 y1 x2 y2).1 - e.centerX|
    · rw [if_pos hc]
      exact ⟨Or.inl rfl, le_refl _, le_of_lt hc⟩
    · rw [if_neg hc]
      exact ⟨Or.inr rfl, not_lt.mp hc, le_refl _⟩

/-- Witness for C6 in the default concave environment, on the horizontal
line through the optical axis. -/
theorem claim6_root_selection_witness :
    (disc envConcave 0 250 1 250 < 0 →
      getIntersection envConcave 0 250 1 250 =
        (envConcave.centerX, envConcave.centerY)) ∧
    (0 ≤ disc envConcave 0 250 1 250 →
      (getIntersection envConcave 0 250 1 250 = point1 envConcave 0 250 1 250 ∨
        getIntersection envConcave 0 250 1 250 = point2 envConcave 0 250 1 250) ∧
      |(getIntersection envConcave 0 250 1 250).1 - envConcave.centerX| ≤
        |(point1 envConcave 0 250 1 250).1 - envConcave.centerX| ∧
      |(getIntersection envConcave 0 250 1 250).1 - envConcave.centerX| ≤
        |(point2 envConcave 0 250 1 250).1 - envConcave.centerX|) :=
  claim6_root_selection envConcave 0 250 1 250 (by decide)

/-- C7: for a curved mirror the drawn image tip's vertical coordinate is
the y-coordinate of the through-focus ray's intersection with the mirror,
while the reported magnification and image height stay the algebraic
solver's values; for a plane mirror the algebraic value
`centerY - imageHeight` is used. -/
theorem claim7_imgTipY_override (e : DrawEnv) :
    (e.mirrorType ≠ MirrorType.PLANE →
      e.imgTipY = XNum.num (getIntersection e e.objX e.objY
        (e.centerX - e.focalLength) e.centerY).2 ∧
      e.image.magnification = (calculateImage e.state).magnification ∧
      e.image.imageHeight = (calculateImage e.state).imageHeight) ∧
    (e.mirrorType = MirrorType.PLANE →
      e.imgTipY = XNum.qsub e.centerY (calculateImage e.state).imageHeight) := by
  constructor
  · intro hm
    refine ⟨?_, rfl, rfl⟩
    unfold DrawEnv.imgTipY
    rw [if_neg hm]
    rfl
  · intro hm
    unfold DrawEnv.imgTipY
    rw [if_pos hm]
    rfl

/-- Witness for C7 in the default concave environment. -/
theorem claim7_imgTipY_override_witness :
    envConcave.imgTipY = XNum.num (getIntersection envConcave envConcave.objX
      envConcave.objY (envConcave.centerX - envConcave.focalLength)
      envConcave.centerY).2 ∧
    envConcave.image.magnification =
      (calculateImage envConcave.state).magnification ∧
    envConcave.image.imageHeight =
      (calculateImage envConcave.state).imageHeight :=
  (claim7_imgTipY_override envConcave).1 (by decide)

/-- C8: whenever the image is virtual (`isReal = false`), every constructed
ray carries a virtual-extension segment whose far endpoint is the reported
image tip `(imgTipX, imgTipY)` — all three curved-mirror rays and both
plane-mirror rays (the plane horizontal ray's endpoint `(imgTipX, objY)`
coincides with the image tip since the plane image height equals the
object height). -/
theorem claim8_virtual_extension (e : DrawEnv)
    (hvirt : e.image.isReal = false) :
    ∀ r ∈ e.rays, r.showVirtual = true ∧ r.virtualX = e.imgTipX ∧
      r.virtualY = e.imgTipY := by
  intro r hr
  by_cases hm : e.mirrorType = MirrorType.PLANE
  · have hty : XNum.num e.objY = e.imgTipY := by
      unfold DrawEnv.imgTipY
      rw [if_pos hm]
      simp [DrawEnv.image, DrawEnv.state, calculateImage, hm, XNum.qsub,
        DrawEnv.objY]
    unfold DrawEnv.rays at hr
    rw [if_pos hm] at hr
    simp only [List.mem_cons, List.not_mem_nil, or_false] at hr
    rcases hr with hr | hr
    · subst hr
      exact ⟨rfl, rfl, hty⟩
    · subst hr
      exact ⟨rfl, rfl, rfl⟩
  · have hb : (!e.image.isReal) = true := by rw [hvirt]; rfl
    unfold DrawEnv.rays at hr
    rw [if_neg hm] at hr
    simp only [List.mem_cons, List.not_mem_nil, or_false] at hr
    rcases hr with hr | hr | hr <;> subst hr <;> exact ⟨hb, rfl, rfl⟩

/-- Witness for C8: the horizontal ray of the plane-mirror scene carries a
virtual extension ending at the image tip. -/
theorem claim8_virtual_extension_witness :
    (drawRay envPlane.objX envPlane.objY envPlane.centerX envPlane.objY (-500)
        envPlane.objY true envPlane.imgTipX (XNum.num envPlane.objY)).showVirtual =
      true ∧
    (drawRay envPlane.objX envPlane.objY envPlane.centerX envPlane.objY (-500)
        envPlane.objY true envPlane.imgTipX (XNum.num envPlane.objY)).virtualX =
      envPlane.imgTipX ∧
    (drawRay envPlane.objX envPlane.objY envPlane.centerX envPlane.objY (-500)
        envPlane.objY true envPlane.imgTipX (XNum.num envPlane.objY)).virtualY =
      envPlane.imgTipY :=
  claim8_virtual_extension envPlane rfl _ (List.mem_cons_self _ _)

end Mirrors
